import Mathlib

/-!
Verification of the `basis` Conan recipe (`conanfile.py`): a shallow
embedding of the recipe's configuration resolution, validation,
dependency-option propagation and CMake invocation planning, with
theorems settling the specification's claims about them.
-/

namespace Basis

/-- The package's own options (`options` / `default_options` in the recipe)
together with the environment-resolved flags returned by
`_is_llvm_tools_enabled`, `_is_compile_with_llvm_tools_enabled` and
`_is_tests_enabled` (each already resolved to a boolean). -/
structure Options where
  shared : Bool
  debug : Bool
  enable_ubsan : Bool
  enable_asan : Bool
  enable_msan : Bool
  enable_tsan : Bool
  enable_valgrind : Bool
  llvm_tools : Bool
  compile_with_llvm_tools : Bool
  tests_enabled : Bool
deriving DecidableEq, Repr

/-- The per-dependency sub-options the recipe reads or writes through
`self.options["dep"]`: the five instrumentation flags and boost's
`no_exceptions`. -/
structure DepOpts where
  enable_valgrind : Bool
  enable_ubsan : Bool
  enable_asan : Bool
  enable_msan : Bool
  enable_tsan : Bool
  no_exceptions : Bool
deriving DecidableEq, Repr

/-- A `DepOpts` record with every sub-option off. -/
def DepOpts.allOff : DepOpts :=
  ⟨false, false, false, false, false, false⟩

/-- The dependency nodes whose sub-options `configure` touches or reads:
one option map per named dependency. -/
structure DepGraph where
  chromium_base : DepOpts
  chromium_libxml : DepOpts
  boost : DepOpts
  corrade : DepOpts
  openssl : DepOpts
  conan_gtest : DepOpts
  benchmark : DepOpts
deriving DecidableEq, Repr

/-- The error raised by `configure`: `ConanInvalidConfiguration(msg)`. -/
inductive ConanError where
  | invalidConfiguration : String → ConanError
deriving DecidableEq, Repr

/-- The disjunction guarding both sanitizer checks and both sanitizer
requirement blocks (`enable_ubsan or enable_asan or enable_msan or
enable_tsan`). -/
def sanitizersEnabled (o : Options) : Bool :=
  o.enable_ubsan || o.enable_asan || o.enable_msan || o.enable_tsan

/-- Lines 124-125 of `configure`: if `enable_valgrind`, set
`chromium_base.enable_valgrind` to true. -/
def propagateValgrind (o : Options) (g : DepGraph) : DepGraph :=
  if o.enable_valgrind then
    { g with chromium_base := { g.chromium_base with enable_valgrind := true } }
  else g

/-- Lines 141-149 of `configure`: the `enable_ubsan` propagation block. -/
def propagateUbsan (o : Options) (g : DepGraph) : DepGraph :=
  if o.enable_ubsan then
    let g := { g with chromium_base := { g.chromium_base with enable_ubsan := true } }
    let g := { g with chromium_libxml := { g.chromium_libxml with enable_ubsan := true } }
    let g := { g with boost := { g.boost with enable_ubsan := true } }
    let g := { g with corrade := { g.corrade with enable_ubsan := true } }
    let g := { g with openssl := { g.openssl with enable_ubsan := true } }
    if o.tests_enabled then
      let g := { g with conan_gtest := { g.conan_gtest with enable_ubsan := true } }
      { g with benchmark := { g.benchmark with enable_ubsan := true } }
    else g
  else g

/-- Lines 151-159 of `configure`: the `enable_asan` propagation block. -/
def propagateAsan (o : Options) (g : DepGraph) : DepGraph :=
  if o.enable_asan then
    let g := { g with chromium_base := { g.chromium_base with enable_asan := true } }
    let g := { g with chromium_libxml := { g.chromium_libxml with enable_asan := true } }
    let g := { g with boost := { g.boost with enable_asan := true } }
    let g := { g with corrade := { g.corrade with enable_asan := true } }
    let g := { g with openssl := { g.openssl with enable_asan := true } }
    if o.tests_enabled then
      let g := { g with conan_gtest := { g.conan_gtest with enable_asan := true } }
      { g with benchmark := { g.benchmark with enable_asan := true } }
    else g
  else g

/-- Lines 161-169 of `configure`: the `enable_msan` propagation block. -/
def propagateMsan (o : Options) (g : DepGraph) : DepGraph :=
  if o.enable_msan then
    let g := { g with chromium_base := { g.chromium_base with enable_msan := true } }
    let g := { g with chromium_libxml := { g.chromium_libxml with enable_msan := true } }
    let g := { g with boost := { g.boost with enable_msan := true } }
    let g := { g with corrade := { g.corrade with enable_msan := true } }
    let g := { g with openssl := { g.openssl with enable_msan := true } }
    if o.tests_enabled then
      let g := { g with conan_gtest := { g.conan_gtest with enable_msan := true } }
      { g with benchmark := { g.benchmark with enable_msan := true } }
    else g
  else g

/-- Lines 171-179 of `configure`: the `enable_tsan` propagation block. -/
def propagateTsan (o : Options) (g : DepGraph) : DepGraph :=
  if o.enable_tsan then
    let g := { g with chromium_base := { g.chromium_base with enable_tsan := true } }
    let g := { g with chromium_libxml := { g.chromium_libxml with enable_tsan := true } }
    let g := { g with boost := { g.boost with enable_tsan := true } }
    let g := { g with corrade := { g.corrade with enable_tsan := true } }
    let g := { g with openssl := { g.openssl with enable_tsan := true } }
    if o.tests_enabled then
      let g := { g with conan_gtest := { g.conan_gtest with enable_tsan := true } }
      { g with benchmark := { g.benchmark with enable_tsan := true } }
    else g
  else g

/-- The four sanitizer propagation blocks of `configure`, in source order
(ubsan, asan, msan, tsan). -/
def propagateSanitizers (o : Options) (g : DepGraph) : DepGraph :=
  propagateTsan o (propagateMsan o (propagateAsan o (propagateUbsan o g)))

/-- The full propagation step of `configure`: the valgrind write followed
by the four sanitizer blocks. -/
def propagate (o : Options) (g : DepGraph) : DepGraph :=
  propagateSanitizers o (propagateValgrind o g)

/-- The `configure` method (lines 115-179), before the `lower_build_type`
warning which has no effect on state. Returns the dependency graph as it
stands when the method finishes or aborts, together with the raised
`ConanInvalidConfiguration` if any. The checks and writes occur in source
order: the `COMPILE_WITH_LLVM_TOOLS` check (121-122), the valgrind write
(124-125), the sanitizers/llvm_tools check (127-132), the
sanitizers/boost-no-exceptions check (134-139), then the sanitizer
propagation blocks (141-179). -/
def configure (o : Options) (g : DepGraph) : DepGraph × Option ConanError :=
  if o.compile_with_llvm_tools && !o.llvm_tools then
    (g, some (ConanError.invalidConfiguration "llvm_tools must be enabled"))
  else
    let g1 := propagateValgrind o g
    if sanitizersEnabled o && !o.llvm_tools then
      (g1, some (ConanError.invalidConfiguration "sanitizers require llvm_tools"))
    else if sanitizersEnabled o && !g1.boost.no_exceptions then
      (g1, some (ConanError.invalidConfiguration "sanitizers require boost without exceptions"))
    else
      (propagateSanitizers o g1, none)

/-- `get_version` (lines 32-34): append the `BUILD_NUMBER` environment
value to the base version when the variable is set to a truthy (nonempty)
string, else return the base version. -/
def get_version (version : String) (bn : Option String) : String :=
  match bn with
  | some s => if s.isEmpty then version else version ++ s
  | none => version

/-- Lowercasing a string, embedded as mapping `Char.toLower` over the
characters (Python's `str.lower()` / `val.lower()`). -/
def strLower (s : String) : String := String.mk (s.data.map Char.toLower)

/-- The strings `distutils.util.strtobool` maps to 1. -/
def trueValues : List String := ["y", "yes", "t", "true", "on", "1"]

/-- The strings `distutils.util.strtobool` maps to 0. -/
def falseValues : List String := ["n", "no", "f", "false", "off", "0"]

/-- Modelled from the spec: the boolean parsing used when resolving
environment overrides (`strtobool` imported at line 8 from Python's
`distutils.util`, whose body is not under src/). It lowercases the value,
maps {y,yes,t,true,on,1} to 1 and {n,no,f,false,off,0} to 0, and fails on
anything else. -/
def strtobool (val : String) : Except String Nat :=
  let v := strLower val
  if v ∈ trueValues then Except.ok 1
  else if v ∈ falseValues then Except.ok 0
  else Except.error ("invalid truth value " ++ v)

/-- The error raised when a boolean override string is unparseable. -/
inductive OptionError where
  | invalidOptionValue : String → OptionError
deriving DecidableEq, Repr

/-- Modelled from the spec: resolution of a boolean override string
(`_environ_option`, provided by the `conan_build_helper` python_requires
and used by `_is_llvm_tools_enabled` at lines 101-109, is not under src/):
parse the string with `strtobool`, yielding a boolean, and surface an
`InvalidOptionValue` error when parsing fails. -/
def resolveBoolOverride (s : String) : Except OptionError Bool :=
  match strtobool s with
  | Except.ok n => Except.ok (n == 1)
  | Except.error _ => Except.error (OptionError.invalidOptionValue (strLower s))

/-- The `no_doctest` condition computed in `requirements` (lines 225-226)
and `_configure_cmake` (lines 260-261): true when the lowercased build
type is neither "debug" nor "relwithdebinfo". -/
def no_doctest (build_type : String) : Bool :=
  !(strLower build_type == "debug") && !(strLower build_type == "relwithdebinfo")

/-- The `requirements` method (lines 203-240): the names of the packages
declared with `self.requires`, in source order. `conan_gtest` and
`benchmark` are required only when tests are enabled, `doctest` only when
`no_doctest` is false. -/
def requirements (o : Options) (build_type : String) : List String :=
  ["boost", "corrade", "fmt", "entt", "chromium_build_util", "chromium_libxml"]
    ++ (if o.tests_enabled then ["conan_gtest", "benchmark"] else [])
    ++ (if no_doctest build_type then [] else ["doctest"])
    ++ ["chromium_base", "openssl"]

/-- The `cmake.definitions` dictionary: a partial map from definition
names to their string values. -/
def Defs := String → Option String

/-- One assignment `cmake.definitions[k] = v`: the key now maps to `v`,
every other key is unchanged (a later assignment to the same key
shadows an earlier one, as in a dictionary). -/
def setDef (ds : Defs) (k v : String) : Defs :=
  fun q => if q == k then some v else ds q

/-- The `cmake.definitions` assignments of `_configure_cmake`
(lines 246-275), in source order. `ENABLE_VALGRIND` is first set to
`'ON'` and overwritten with `'OFF'` when valgrind is off;
`CONAN_AUTO_INSTALL` is assigned twice; `BUILD_SHARED_LIBS` is assigned
only when `shared` is true. The last two assignments model
`add_cmake_option` (from the spec: each resolved boolean option maps to an
`"ON"`/`"OFF"` definition; the helper's body is not under src/). -/
def cmakeDefinitions (o : Options) (build_type : String) : Defs :=
  let ds : Defs := fun _ => none
  let ds := setDef ds "ENABLE_VALGRIND" "ON"
  let ds := if !o.enable_valgrind then setDef ds "ENABLE_VALGRIND" "OFF" else ds
  let ds := setDef ds "ENABLE_UBSAN" (if o.enable_ubsan then "ON" else "OFF")
  let ds := setDef ds "ENABLE_ASAN" (if o.enable_asan then "ON" else "OFF")
  let ds := setDef ds "ENABLE_MSAN" (if o.enable_msan then "ON" else "OFF")
  let ds := setDef ds "ENABLE_TSAN" (if o.enable_tsan then "ON" else "OFF")
  let ds := setDef ds "CONAN_AUTO_INSTALL" "OFF"
  let ds := setDef ds "ENABLE_DOCTEST" (if no_doctest build_type then "OFF" else "ON")
  let ds := setDef ds "CONAN_AUTO_INSTALL" "OFF"
  let ds := if o.shared then setDef ds "BUILD_SHARED_LIBS" "ON" else ds
  let ds := setDef ds "ENABLE_TESTS" (if o.tests_enabled then "ON" else "OFF")
  setDef ds "COMPILE_WITH_LLVM_TOOLS" (if o.compile_with_llvm_tools then "ON" else "OFF")

/-- The build-tool phases an invocation plan can contain. -/
inductive Phase where
  | configurePhase : Phase
  | buildPhase : Phase
  | testPhase : Phase
  | installPhase : Phase
deriving DecidableEq, Repr

/-- The ordered phases the `build` method (lines 298-322) drives:
`_configure_cmake` calls `cmake.configure` (line 277), `build` calls
`cmake.configure` again (line 310) and `cmake.build` (line 316), and runs
`cmake.test` (line 322) only when tests are enabled. -/
def buildPhases (o : Options) : List Phase :=
  [Phase.configurePhase, Phase.configurePhase, Phase.buildPhase]
    ++ (if o.tests_enabled then [Phase.testPhase] else [])

/-- An options record with every flag off. -/
def Options.allOff : Options :=
  ⟨false, false, false, false, false, false, false, false, false, false⟩

/-- A dependency graph with every sub-option off. -/
def DepGraph.allOff : DepGraph :=
  ⟨DepOpts.allOff, DepOpts.allOff, DepOpts.allOff, DepOpts.allOff,
   DepOpts.allOff, DepOpts.allOff, DepOpts.allOff⟩

/-- `DepGraph.allOff` with boost's `no_exceptions` enabled. -/
def DepGraph.boostNoExc : DepGraph :=
  { DepGraph.allOff with boost := { DepOpts.allOff with no_exceptions := true } }

/-- Only `enable_asan` set. -/
def Options.onlyAsan : Options :=
  { Options.allOff with enable_asan := true }

/-- `enable_asan` set together with the llvm-tools prerequisite. -/
def Options.asanLlvm : Options :=
  { Options.allOff with enable_asan := true, llvm_tools := true }

/-- `enable_asan` set together with `enable_valgrind`, llvm-tools off. -/
def Options.asanValgrind : Options :=
  { Options.allOff with enable_asan := true, enable_valgrind := true }

/-- `enable_asan` set together with `COMPILE_WITH_LLVM_TOOLS`, llvm-tools
off: violates both the sanitizer/llvm_tools rule and the
compile-with-llvm-tools rule. -/
def Options.asanCompileWith : Options :=
  { Options.allOff with enable_asan := true, compile_with_llvm_tools := true }

/-- Only the tests flag set. -/
def Options.onlyTests : Options :=
  { Options.allOff with tests_enabled := true }

/-! ### Helper lemmas -/

/-- The valgrind write only touches `chromium_base`, so boost's options are
unchanged by it. -/
theorem propagateValgrind_boost (o : Options) (g : DepGraph) :
    (propagateValgrind o g).boost = g.boost := by
  unfold propagateValgrind
  split <;> rfl

/-- The accepted true-strings and false-strings are disjoint. -/
theorem mem_falseValues_not_trueValues {x : String} (h : x ∈ falseValues) :
    x ∉ trueValues := by
  fin_cases h <;> decide

/-! ### Claim theorems -/

set_option maxHeartbeats 2000000

/-- Claim C1: for every configuration with at least one of enable_asan,
enable_ubsan, enable_msan, enable_tsan set and the llvm-tools prerequisite
flag false, `configure` raises a `ConanInvalidConfiguration` whose message
names the missing `llvm_tools` prerequisite; with the prerequisite true
(and boost's `no_exceptions` satisfied), `configure` raises nothing. -/
theorem claim1_sanitizers_need_llvm_tools (o : Options) (g : DepGraph) :
    (sanitizersEnabled o = true → o.llvm_tools = false →
      ∃ m, (configure o g).2 = some (ConanError.invalidConfiguration m) ∧
        List.IsInfix "llvm_tools".toList m.toList)
    ∧ (sanitizersEnabled o = true → o.llvm_tools = true →
        g.boost.no_exceptions = true → (configure o g).2 = none) := by
  constructor
  · intro hs hl
    by_cases hc : o.compile_with_llvm_tools = true
    · exact ⟨"llvm_tools must be enabled", by simp [configure, hc, hl], by decide⟩
    · simp only [Bool.not_eq_true] at hc
      exact ⟨"sanitizers require llvm_tools", by simp [configure, hc, hl, hs], by decide⟩
  · intro hs hl hb
    simp [configure, hl, hs, propagateValgrind_boost, hb]

/-- Claim C1 witness: the asan-without-llvm-tools configuration fails with
a message naming llvm_tools, and the same configuration with the
prerequisite (and boost no_exceptions) passes. -/
theorem claim1_witness :
    (∃ m, (configure Options.onlyAsan DepGraph.allOff).2
        = some (ConanError.invalidConfiguration m) ∧
        List.IsInfix "llvm_tools".toList m.toList)
    ∧ (configure Options.asanLlvm DepGraph.boostNoExc).2 = none :=
  ⟨(claim1_sanitizers_need_llvm_tools Options.onlyAsan DepGraph.allOff).1
      (by decide) (by decide),
   (claim1_sanitizers_need_llvm_tools Options.asanLlvm DepGraph.boostNoExc).2
      (by decide) (by decide) (by decide)⟩

/-- Claim C2: for every configuration with a sanitizer enabled and boost's
`no_exceptions` false, `configure` raises a `ConanInvalidConfiguration`;
and when no sanitizer is enabled or `no_exceptions` is true, it never
raises the boost-no-exceptions violation. -/
theorem claim2_sanitizers_need_boost_no_exceptions (o : Options) (g : DepGraph) :
    (sanitizersEnabled o = true → g.boost.no_exceptions = false →
      ∃ m, (configure o g).2 = some (ConanError.invalidConfiguration m))
    ∧ ((sanitizersEnabled o = false ∨ g.boost.no_exceptions = true) →
      (configure o g).2 ≠
        some (ConanError.invalidConfiguration "sanitizers require boost without exceptions")) := by
  constructor
  · intro hs hb
    by_cases hl : o.llvm_tools = true
    · exact ⟨"sanitizers require boost without exceptions",
        by simp [configure, hl, hs, propagateValgrind_boost, hb]⟩
    · simp only [Bool.not_eq_true] at hl
      by_cases hc : o.compile_with_llvm_tools = true
      · exact ⟨"llvm_tools must be enabled", by simp [configure, hc, hl]⟩
      · simp only [Bool.not_eq_true] at hc
        exact ⟨"sanitizers require llvm_tools", by simp [configure, hc, hl, hs]⟩
  · intro hor hEq
    simp only [configure] at hEq
    split at hEq
    · simp only [Option.some.injEq, ConanError.invalidConfiguration.injEq] at hEq
      exact absurd hEq (by decide)
    · split at hEq
      · simp only [Option.some.injEq, ConanError.invalidConfiguration.injEq] at hEq
        exact absurd hEq (by decide)
      · split at hEq
        · rename_i hg
          rw [propagateValgrind_boost] at hg
          rcases hor with hs | hb
          · rw [hs] at hg
            simp at hg
          · rw [hb] at hg
            simp at hg
        · exact Option.noConfusion hEq

/-- Claim C2 witness: asan with llvm_tools but without boost
`no_exceptions` fails, and a sanitizer-free configuration never reports
the boost rule. -/
theorem claim2_witness :
    (∃ m, (configure Options.asanLlvm DepGraph.allOff).2
        = some (ConanError.invalidConfiguration m))
    ∧ (configure Options.allOff DepGraph.allOff).2 ≠
        some (ConanError.invalidConfiguration "sanitizers require boost without exceptions") :=
  ⟨(claim2_sanitizers_need_boost_no_exceptions Options.asanLlvm DepGraph.allOff).1
      (by decide) (by decide),
   (claim2_sanitizers_need_boost_no_exceptions Options.allOff DepGraph.allOff).2
      (Or.inl (by decide))⟩

/-- Claim C3: the propagation step of `configure` is idempotent — applying
it twice with the same resolved options yields the same per-dependency
sub-option state as applying it once. -/
theorem claim3_propagate_idempotent (o : Options) (g : DepGraph) :
    propagate o (propagate o g) = propagate o g := by
  obtain ⟨s, d, u, a, m, t, v, l, c, e⟩ := o
  cases u <;> cases a <;> cases m <;> cases t <;> cases v <;> cases e <;> rfl

/-- Claim C4: every override string whose lowercasing is in
{y,yes,t,true,on,1} resolves to true, every one in {n,no,f,false,off,0}
resolves to false, and every other string fails with an
`InvalidOptionValue` error. -/
theorem claim4_bool_override_resolution (s : String) :
    (strLower s ∈ trueValues → resolveBoolOverride s = Except.ok true)
    ∧ (strLower s ∈ falseValues → resolveBoolOverride s = Except.ok false)
    ∧ (strLower s ∉ trueValues → strLower s ∉ falseValues →
        resolveBoolOverride s = Except.error (OptionError.invalidOptionValue (strLower s))) := by
  refine ⟨fun h => ?_, fun h => ?_, fun h1 h2 => ?_⟩
  · simp [resolveBoolOverride, strtobool, h]
  · simp [resolveBoolOverride, strtobool, h, mem_falseValues_not_trueValues h]
  · simp [resolveBoolOverride, strtobool, h1, h2]

/-- Claim C4 witness: "YES" resolves to true, "Off" to false, and "maybe"
fails with `InvalidOptionValue`. -/
theorem claim4_witness :
    resolveBoolOverride "YES" = Except.ok true
    ∧ resolveBoolOverride "Off" = Except.ok false
    ∧ resolveBoolOverride "maybe"
        = Except.error (OptionError.invalidOptionValue (strLower "maybe")) :=
  ⟨(claim4_bool_override_resolution "YES").1 (by decide),
   (claim4_bool_override_resolution "Off").2.1 (by decide),
   (claim4_bool_override_resolution "maybe").2.2 (by decide) (by decide)⟩

/-- Claim C5 counterexample: `asanCompileWith` violates both the
sanitizer/llvm-tools rule (1) and the compile-with-llvm-tools rule (3),
yet `configure` reports the compile-with-llvm-tools message, not the
sanitizer message the claim predicts. -/
theorem claim5_counterexample :
    sanitizersEnabled Options.asanCompileWith = true
    ∧ Options.asanCompileWith.llvm_tools = false
    ∧ Options.asanCompileWith.compile_with_llvm_tools = true
    ∧ (configure Options.asanCompileWith DepGraph.allOff).2
        = some (ConanError.invalidConfiguration "llvm_tools must be enabled")
    ∧ (configure Options.asanCompileWith DepGraph.allOff).2
        ≠ some (ConanError.invalidConfiguration "sanitizers require llvm_tools") := by
  decide

/-- Claim C5 as amended: the checks run in the source order — first the
compile-with-llvm-tools rule, then the sanitizer/llvm-tools rule, then the
sanitizer/boost-no-exceptions rule — stopping at the first failure, so a
configuration violating both the sanitizer/llvm-tools rule and the
compile-with-llvm-tools rule reports the latter. -/
theorem claim5_check_order (o : Options) (g : DepGraph) :
    (configure o g).2 =
      if o.compile_with_llvm_tools && !o.llvm_tools then
        some (ConanError.invalidConfiguration "llvm_tools must be enabled")
      else if sanitizersEnabled o && !o.llvm_tools then
        some (ConanError.invalidConfiguration "sanitizers require llvm_tools")
      else if sanitizersEnabled o && !g.boost.no_exceptions then
        some (ConanError.invalidConfiguration "sanitizers require boost without exceptions")
      else none := by
  by_cases h1 : (o.compile_with_llvm_tools && !o.llvm_tools) = true
  · simp [configure, h1]
  · by_cases h2 : (sanitizersEnabled o && !o.llvm_tools) = true
    · simp [configure, h1, h2]
    · by_cases h3 : (sanitizersEnabled o && !g.boost.no_exceptions) = true
      · simp [configure, h1, h2, h3, propagateValgrind_boost]
      · simp [configure, h1, h2, h3, propagateValgrind_boost]

/-- Claim C6 counterexample: with valgrind and asan enabled and llvm-tools
off, `configure` aborts with a constraint violation, yet the
`chromium_base` valgrind sub-option has already been written when it
aborts — the per-dependency option maps are not unchanged. -/
theorem claim6_counterexample :
    (configure Options.asanValgrind DepGraph.allOff).2
      = some (ConanError.invalidConfiguration "sanitizers require llvm_tools")
    ∧ (configure Options.asanValgrind DepGraph.allOff).1 ≠ DepGraph.allOff
    ∧ (configure Options.asanValgrind DepGraph.allOff).1.chromium_base.enable_valgrind
        = true := by
  decide

/-- Claim C6 as amended: when `configure` aborts with a constraint
violation, no sanitizer sub-option has been written to any dependency and
no sub-option at all has been written to any dependency other than
`chromium_base`; only `chromium_base.enable_valgrind` may already have
been written, because the valgrind write precedes the two sanitizer
checks. -/
theorem claim6_aborted_run_state (o : Options) (g g' : DepGraph) (e : ConanError)
    (h : configure o g = (g', some e)) :
    g'.chromium_libxml = g.chromium_libxml
    ∧ g'.boost = g.boost
    ∧ g'.corrade = g.corrade
    ∧ g'.openssl = g.openssl
    ∧ g'.conan_gtest = g.conan_gtest
    ∧ g'.benchmark = g.benchmark
    ∧ g'.chromium_base.enable_ubsan = g.chromium_base.enable_ubsan
    ∧ g'.chromium_base.enable_asan = g.chromium_base.enable_asan
    ∧ g'.chromium_base.enable_msan = g.chromium_base.enable_msan
    ∧ g'.chromium_base.enable_tsan = g.chromium_base.enable_tsan := by
  unfold configure at h
  dsimp only at h
  split at h
  · injection h with h1 h2
    subst h1
    exact ⟨rfl, rfl, rfl, rfl, rfl, rfl, rfl, rfl, rfl, rfl⟩
  · split at h
    · injection h with h1 h2
      subst h1
      unfold propagateValgrind
      split <;> exact ⟨rfl, rfl, rfl, rfl, rfl, rfl, rfl, rfl, rfl, rfl⟩
    · split at h
      · injection h with h1 h2
        subst h1
        unfold propagateValgrind
        split <;> exact ⟨rfl, rfl, rfl, rfl, rfl, rfl, rfl, rfl, rfl, rfl⟩
      · injection h with h1 h2
        exact Option.noConfusion h2

/-- Claim C6 witness: at the concrete aborting configuration, boost's
option map and chromium_base's asan flag are untouched. -/
theorem claim6_witness :
    (propagateValgrind Options.asanValgrind DepGraph.allOff).boost = DepGraph.allOff.boost
    ∧ (propagateValgrind Options.asanValgrind DepGraph.allOff).chromium_base.enable_asan
        = DepGraph.allOff.chromium_base.enable_asan :=
  ⟨(claim6_aborted_run_state Options.asanValgrind DepGraph.allOff
      (propagateValgrind Options.asanValgrind DepGraph.allOff)
      (ConanError.invalidConfiguration "sanitizers require llvm_tools") (by decide)).2.1,
   (claim6_aborted_run_state Options.asanValgrind DepGraph.allOff
      (propagateValgrind Options.asanValgrind DepGraph.allOff)
      (ConanError.invalidConfiguration "sanitizers require llvm_tools") (by decide)).2.2.2.2.2.2.2.1⟩

/-- Claim C7: when the tests flag resolves to false the invocation plan
contains no Test phase, and when it resolves to true the plan contains
exactly one Test phase. -/
theorem claim7_test_phase (o : Options) :
    (o.tests_enabled = false → (buildPhases o).count Phase.testPhase = 0)
    ∧ (o.tests_enabled = true → (buildPhases o).count Phase.testPhase = 1) := by
  constructor <;> intro h <;> simp only [buildPhases, h] <;> decide

/-- Claim C7 witness: the all-off configuration yields no Test phase; the
tests-on configuration yields exactly one. -/
theorem claim7_witness :
    (buildPhases Options.allOff).count Phase.testPhase = 0
    ∧ (buildPhases Options.onlyTests).count Phase.testPhase = 1 :=
  ⟨(claim7_test_phase Options.allOff).1 rfl,
   (claim7_test_phase Options.onlyTests).2 rfl⟩

/-- Claim C8 counterexample: with `shared` false, `_configure_cmake` emits
no `BUILD_SHARED_LIBS` definition at all instead of the `"OFF"` the claim
predicts. -/
theorem claim8_counterexample :
    Options.allOff.shared = false
    ∧ cmakeDefinitions Options.allOff "Release" "BUILD_SHARED_LIBS"
        = none := by
  decide

/-- Claim C8 as amended: the five instrumentation options each map to one
definition with true translated as "ON" and false as "OFF", while `shared`
yields `BUILD_SHARED_LIBS = "ON"` when true and no definition when
false. -/
theorem claim8_bool_definitions (o : Options) (build_type : String) :
    cmakeDefinitions o build_type "ENABLE_VALGRIND"
      = some (if o.enable_valgrind then "ON" else "OFF")
    ∧ cmakeDefinitions o build_type "ENABLE_UBSAN"
      = some (if o.enable_ubsan then "ON" else "OFF")
    ∧ cmakeDefinitions o build_type "ENABLE_ASAN"
      = some (if o.enable_asan then "ON" else "OFF")
    ∧ cmakeDefinitions o build_type "ENABLE_MSAN"
      = some (if o.enable_msan then "ON" else "OFF")
    ∧ cmakeDefinitions o build_type "ENABLE_TSAN"
      = some (if o.enable_tsan then "ON" else "OFF")
    ∧ cmakeDefinitions o build_type "BUILD_SHARED_LIBS"
      = (if o.shared then some "ON" else none) := by
  obtain ⟨s, d, u, a, m, t, v, l, c, e⟩ := o
  cases v <;> cases s <;> exact ⟨rfl, rfl, rfl, rfl, rfl, rfl⟩

/-- Claim C9: when the `BUILD_NUMBER` environment variable is present the
package version is the base version with its value appended, and when it
is absent the version is the base version unchanged. -/
theorem claim9_get_version (version s : String) :
    get_version version (some s) = version ++ s
    ∧ get_version version none = version := by
  refine ⟨?_, rfl⟩
  show (if s.isEmpty then version else version ++ s) = version ++ s
  split
  · rename_i h
    rw [String.isEmpty_iff] at h
    subst h
    apply String.ext
    simp [String.data_append, show ("" : String).data = [] from rfl]
  · rfl

/-- The `no_doctest` flag is off exactly when the lowercased build type is
"debug" or "relwithdebinfo". -/
theorem no_doctest_eq_false_iff (build_type : String) :
    no_doctest build_type = false ↔
      (strLower build_type = "debug" ∨ strLower build_type = "relwithdebinfo") := by
  unfold no_doctest
  by_cases h1 : strLower build_type = "debug"
  · simp [h1]
  · by_cases h2 : strLower build_type = "relwithdebinfo"
    · simp [h1, h2]
    · simp [h1, h2]

/-- `_configure_cmake` always emits an `ENABLE_DOCTEST` definition whose
value follows `no_doctest`. -/
theorem lookup_enable_doctest (o : Options) (build_type : String) :
    cmakeDefinitions o build_type "ENABLE_DOCTEST"
      = some (if no_doctest build_type then "OFF" else "ON") := by
  obtain ⟨s, d, u, a, m, t, v, l, c, e⟩ := o
  cases v <;> cases s <;> rfl

/-- `doctest` is among the declared requirements exactly when
`no_doctest` is off. -/
theorem doctest_mem_requirements (o : Options) (build_type : String) :
    "doctest" ∈ requirements o build_type ↔ no_doctest build_type = false := by
  unfold requirements
  cases h : no_doctest build_type <;> cases he : o.tests_enabled <;> simp

/-- Claim C10: the doctest dependency is required and `ENABLE_DOCTEST` is
set to "ON" exactly when the build type compares case-insensitively equal
to "debug" or "relwithdebinfo"; otherwise doctest is not required and
`ENABLE_DOCTEST` is "OFF". -/
theorem claim10_doctest (o : Options) (build_type : String) :
    ("doctest" ∈ requirements o build_type ↔
      (strLower build_type = "debug" ∨ strLower build_type = "relwithdebinfo"))
    ∧ cmakeDefinitions o build_type "ENABLE_DOCTEST"
      = some (if strLower build_type = "debug" ∨ strLower build_type = "relwithdebinfo"
          then "ON" else "OFF") := by
  constructor
  · rw [doctest_mem_requirements, no_doctest_eq_false_iff]
  · rw [lookup_enable_doctest]
    by_cases h : strLower build_type = "debug" ∨ strLower build_type = "relwithdebinfo"
    · rw [if_pos h, (no_doctest_eq_false_iff build_type).mpr h]
      rfl
    · rw [if_neg h]
      have hn : no_doctest build_type = true := by
        cases hc : no_doctest build_type
        · exact absurd ((no_doctest_eq_false_iff build_type).mp hc) h
        · rfl
      rw [hn]
      rfl

end Basis
